import Mathlib

/-!
Verification development for the Spline TCP congestion-control module
(`net/ipv4/tcp_spline.c`).  The per-connection state block `struct scc`,
the host-visible socket fields and the per-ack rate sample are embedded as
records of natural numbers; every C `u32`/`u16`/bit-field write is masked
to its width, so unsigned wrap-around is modelled exactly.  Each C function
is translated to a Lean function of the same name.
-/

set_option autoImplicit false

namespace TcpSpline

/-- 2^32, the modulus of C `u32` arithmetic. -/
abbrev U32 : Nat := 4294967296

/-- 2^64, the modulus of C `u64` arithmetic. -/
abbrev U64 : Nat := 18446744073709551616

/-- C `u32` subtraction `a - b` (wrap-around modulo 2^32). -/
def u32sub (a b : Nat) : Nat := (a % U32 + (U32 - b % U32)) % U32

/-- Kernel `before(seq1, seq2)`: the signed 32-bit difference is negative. -/
def u32before (a b : Nat) : Bool := decide (u32sub a b ≥ 2147483648)

/-- Kernel `after(seq2, seq1) = before(seq1, seq2)`. -/
def u32after (a b : Nat) : Bool := u32before b a

/-- Kernel `tcp_stamp_us_delta(t1, t0) = max_t(s64, t1 - t0, 0)` on u64 stamps. -/
def tcp_stamp_us_delta (t1 t0 : Nat) : Nat :=
  let d := (t1 % U64 + (U64 - t0 % U64)) % U64
  if d < 9223372036854775808 then d else 0

/-- `enum spline_cc_mode`. -/
inductive SplineMode where
  | MODE_START_PROBE
  | MODE_PROBE_BW
  | MODE_PROBE_RTT
  | MODE_DRAIN_PROBE
deriving Repr, DecidableEq

open SplineMode

/-- `struct scc`, the per-connection congestion-control state.  Bit-field
widths from the source: `epp:6`, `EPOCH_ROUND:7`, `lt_rtt_cnt:7`,
`high_round:6`, `loss_cnt:8`; `unfair_flag`/`stable_flag`/`rtt_epoch` are
`u16`; everything else is `u32` (`cycle_mstamp` is `u64`). -/
structure Scc where
  curr_cwnd : Nat
  last_min_rtt : Nat
  last_ack : Nat
  curr_ack : Nat
  fairness_rat : Nat
  last_rtt : Nat
  curr_rtt : Nat
  gain : Nat
  cwnd_gain : Nat
  cycle_mstamp : Nat
  bw : Nat
  lt_bw : Nat
  last_min_rtt_stamp : Nat
  lt_last_stamp : Nat
  lt_last_lost : Nat
  lt_last_wstamp_ns : Nat
  lt_last_delivered : Nat
  pacing_gain : Nat
  delivered : Nat
  rtt_epoch : Nat
  unfair_flag : Nat
  stable_flag : Nat
  rtt_cnt : Nat
  epp : Nat
  EPOCH_ROUND : Nat
  lt_use_bw : Bool
  current_mode : SplineMode
  prev_ca_state : Nat
  lt_is_sampling : Bool
  lt_rtt_cnt : Nat
  round_start : Bool
  has_seen_rtt : Bool
  high_round : Nat
  loss_cnt : Nat
  start_phase : Bool
deriving Repr, DecidableEq

/-- Host `tcp_sock`/socket fields that the module only reads during a call. -/
structure Tp where
  srtt_us : Nat
  mss_cache : Nat
  delivered : Nat
  lost : Nat
  delivered_mstamp : Nat
  tcp_wstamp_ns : Nat
  tcp_clock_cache : Nat
  snd_cwnd_clamp : Nat
  max_pacing_rate : Nat
  jiffies : Nat
  packets_in_flight : Nat
  min_rtt : Nat
deriving Repr, DecidableEq

/-- Host fields the module writes: `tp->snd_cwnd`, `tp->snd_ssthresh`,
`sk->sk_pacing_rate`. -/
structure Sk where
  snd_cwnd : Nat
  snd_ssthresh : Nat
  pacing_rate : Nat
deriving Repr, DecidableEq

/-- `struct rate_sample` fields consumed by the module.  `delivered`,
`interval_us` and `rtt_us` are signed in the source. -/
structure RateSample where
  delivered : Int
  interval_us : Int
  rtt_us : Int
  losses : Nat
  acked_sacked : Nat
  prior_in_flight : Nat
  prior_delivered : Nat
  is_app_limited : Bool
  is_ack_delayed : Bool
deriving Repr, DecidableEq

/-! Module constants (values from the `#define`s and `static const`s). -/

abbrev BW_SCALE_2 : Nat := 24
abbrev BW_UNIT : Nat := 16777216
abbrev BBR_SCALE : Nat := 8
abbrev BBR_UNIT : Nat := 256
abbrev MIN_RTT_US : Nat := 100000
abbrev MIN_BW : Nat := 14480
abbrev SCC_MIN_RTT_WIN_SEC : Nat := 10
abbrev SCC_MIN_SEGMENT_SIZE : Nat := 1448
abbrev SCC_MIN_SND_CWND : Nat := 10
abbrev min_thesh_tf : Nat := 1713567
abbrev thresh_tf : Nat := 3413567
abbrev bbr_lt_bw_diff : Nat := 500
abbrev bbr_lt_bw_max_rtts : Nat := 48
abbrev bbr_lt_intvl_min_rtts : Nat := 4
abbrev scc_lt_loss_thresh : Nat := 3
abbrev bbr_lt_loss_thresh : Nat := 50
abbrev bbr_high_gain : Nat := 550
abbrev bbr_rtt_gain : Nat := 250
abbrev bbr_drain_gain : Nat := 100
abbrev bbr_start_gain : Nat := 256
abbrev scc_drain_gain : Nat := 5646946
/-- `HZ`: modelled with the common CONFIG_HZ=1000 kernel configuration. -/
abbrev HZ : Nat := 1000
abbrev TCP_INFINITE_SSTHRESH : Nat := 2147483647
abbrev TCP_INIT_CWND : Nat := 10

/-- `check_high_rtt`: stability band relative to the previous smoothed RTT. -/
def check_high_rtt (s : Scc) : Bool :=
  decide ((s.last_rtt + 1000) % U32 < s.curr_rtt ∧
    u32sub (s.last_rtt + s.rtt_epoch) ((s.rtt_epoch * 3) % U32 / 4) > s.curr_rtt)

/-- `ack_check`: ACK history stability band. -/
def ack_check (s : Scc) : Bool :=
  decide ((s.curr_ack < (s.last_ack + 7000) % U32 ∧ s.last_ack > SCC_MIN_SND_CWND) ∧
    s.curr_ack > s.last_ack)

/-- `rtt_check`: like `check_high_rtt` but against the windowed minimum RTT. -/
def rtt_check (s : Scc) : Bool :=
  decide ((s.last_min_rtt + 1000) % U32 < s.curr_rtt ∧
    u32sub (s.last_min_rtt + s.rtt_epoch) ((s.rtt_epoch * 3) % U32 / 8) > s.curr_rtt)

/-- `bytes_in_flight`: packets in flight times segment size, saturated at
`0xFFFFFFFF`. -/
def bytes_in_flight (tp : Tp) : Nat :=
  let segment_size := if tp.mss_cache ≠ 0 then tp.mss_cache else SCC_MIN_SEGMENT_SIZE
  let inflight := tp.packets_in_flight * segment_size
  if inflight > 4294967295 then 4294967295 else inflight

/-- Denominator of the division in `percent_gain`:
`(((last_lost + un) * 3)) >> 1` in u32 arithmetic (this can wrap to zero). -/
def percent_gain_denom (last_lost un : Nat) : Nat :=
  ((last_lost + un) % U32 * 3) % U32 / 2

/-- `percent_gain`: the adaptive trust factor
`tf = (st * 3/4 * 2^24) / ((last_lost + un) * 3/2)` with `st`,`un` floored
at 1. -/
def percent_gain (last_lost st un : Nat) : Nat :=
  let st := if st ≠ 0 then st else 1
  let un := if un ≠ 0 then un else 1
  (st * 3 * BW_UNIT / 4) / percent_gain_denom last_lost un

/-- `high_rtt_round`: counts non-high-RTT rounds and, at a streak of 50
with stable ACKs and a full pipe, widens `rtt_epoch` by 4000 (capped). -/
def high_rtt_round (s : Scc) (tp : Tp) : Scc :=
  let inflight := bytes_in_flight tp
  let s := if ¬ check_high_rtt s then { s with high_round := (s.high_round + 1) % 64 } else s
  if s.high_round = 50 ∧ ack_check s ∧ inflight > (s.curr_cwnd * SCC_MIN_SEGMENT_SIZE) % U32 then
    let s := { s with high_round := 0 }
    if s.rtt_epoch < 32768 then { s with rtt_epoch := (s.rtt_epoch + 4000) % 65536 } else s
  else if s.high_round = 50 then { s with high_round := 0 }
  else s

/-- `fairness_check`: the unfairness vote.  The saturation guard compares
the u16 field against `1 << 16` (and its assignment truncates to 0 in the
u16 field). -/
def fairness_check (s : Scc) : Scc :=
  if s.unfair_flag = 65536 then { s with unfair_flag := 65536 % 65536 }
  else if ¬ rtt_check s ∧ ¬ ack_check s ∧ ¬ check_high_rtt s then
    { s with unfair_flag := (s.unfair_flag + 1) % 65536 }
  else s

/-- `stable_check`: the stability vote, same shape as `fairness_check`. -/
def stable_check (s : Scc) : Scc :=
  if s.stable_flag = 65536 then { s with stable_flag := 65536 % 65536 }
  else if rtt_check s ∧ ack_check s ∧ check_high_rtt s then
    { s with stable_flag := (s.stable_flag + 1) % 65536 }
  else s

/-- `loss_rate`: increments the 8-bit `loss_cnt` when the loss ratio since
the lt anchor is high (the guard `loss_cnt < 1 << 8` is always true for an
8-bit field), and bleeds it down when the trust factor is high. -/
def loss_rate (s : Scc) (tp : Tp) : Scc :=
  let tf := percent_gain s.lt_last_lost s.stable_flag s.unfair_flag
  let lost := u32sub tp.lost s.lt_last_lost
  let delivered := u32sub tp.delivered s.lt_last_delivered
  let s := if (lost * 256) % U32 > delivered / 8 ∧ s.loss_cnt < 256 then
    { s with loss_cnt := (s.loss_cnt + 1) % 256 } else s
  if s.loss_cnt > 1 ∧ tf > thresh_tf then { s with loss_cnt := s.loss_cnt - 1 } else s

/-- `scc_rate_bytes_per_sec`: bw-units to bytes/sec with the pacing margin;
all intermediates are u64. -/
def scc_rate_bytes_per_sec (tp : Tp) (rate gain : Nat) : Nat :=
  let rate := (rate * tp.mss_cache) % U64
  let rate := (rate * gain) % U64
  let rate := rate / 256
  let rate := (rate * 990000) % U64
  rate / BW_UNIT

/-- `bbr_bw_to_pacing_rate`: convert and cap at the host's max pacing rate. -/
def bbr_bw_to_pacing_rate (tp : Tp) (bw gain : Nat) : Nat :=
  min (scc_rate_bytes_per_sec tp bw gain) tp.max_pacing_rate

/-- `bbr_init_pacing_rate_from_rtt`: seed the pacing rate from cwnd and the
host's smoothed RTT (nominal 1 ms when none). -/
def bbr_init_pacing_rate_from_rtt (s : Scc) (sk : Sk) (tp : Tp) : Scc × Sk :=
  let rtt_us := if tp.srtt_us ≠ 0 then max (tp.srtt_us / 8) 1 else 1000
  let s := if tp.srtt_us ≠ 0 then { s with has_seen_rtt := true } else s
  let bw := (sk.snd_cwnd * BW_UNIT) % U64 / rtt_us
  (s, { sk with pacing_rate := bbr_bw_to_pacing_rate tp bw s.pacing_gain })

/-- `bbr_set_pacing_rate`: only ever raises the installed pacing rate (with a
one-time RTT-based init). -/
def bbr_set_pacing_rate (s : Scc) (sk : Sk) (tp : Tp) (bw gain : Nat) : Scc × Sk :=
  let rate := bbr_bw_to_pacing_rate tp bw gain
  let p := if ¬ s.has_seen_rtt ∧ tp.srtt_us ≠ 0 then bbr_init_pacing_rate_from_rtt s sk tp
           else (s, sk)
  (p.1, if rate > p.2.pacing_rate then { p.2 with pacing_rate := rate } else p.2)

/-- `scc_reset_lt_bw_sampling_interval`: anchor the lt interval at the host's
current delivery counters. -/
def scc_reset_lt_bw_sampling_interval (s : Scc) (tp : Tp) : Scc :=
  { s with lt_last_stamp := tp.delivered_mstamp / 1000 % U32,
           lt_last_delivered := tp.delivered,
           lt_last_lost := tp.lost,
           lt_rtt_cnt := 0 }

/-- `scc_reset_lt_bw_sampling`: leave the lt machine entirely. -/
def scc_reset_lt_bw_sampling (s : Scc) (tp : Tp) : Scc :=
  scc_reset_lt_bw_sampling_interval
    { s with lt_bw := 0, lt_use_bw := false, lt_is_sampling := false, lt_rtt_cnt := 0 } tp

/-- `bandwidth`: ack-driven bandwidth estimate
`(curr_ack << 24) * 10000 / last_min_rtt`, floored at `MIN_BW`.  The
numerator is computed in u32 (both the shift and the multiply wrap), and
the division has no zero guard on `last_min_rtt`. -/
def bandwidth (s : Scc) : Nat :=
  let tmp_bw := (s.curr_ack * BW_UNIT) % U32 * 10000 % U32
  max (tmp_bw / s.last_min_rtt) MIN_BW

/-- `inflight_throughput`: `bytes_in_flight * 10000 / last_min_rtt` with the
448-byte floor on inflight; the division again has no zero guard. -/
def inflight_throughput (s : Scc) (tp : Tp) : Nat :=
  let inflight := bytes_in_flight tp
  let inflight := if inflight ≠ 0 then inflight else 448
  inflight * 10000 / s.last_min_rtt % U32

/-- Denominator of the division in `fairness_rat`: `beta`, or the substitute
`(u32)(gamma >> 2) >> 24` when `beta` is zero (the substitute itself can be
zero when `gamma < 2^26`). -/
def fairness_rat_denom (gamma beta : Nat) : Nat :=
  if beta = 0 then gamma / 4 % U32 / BW_UNIT else beta

/-- `fairness_rat`: `gamma / beta` clamped to `[16646946, 21989530]`. -/
def fairness_rat (gamma beta : Nat) : Nat :=
  let f := gamma / fairness_rat_denom gamma beta % U32
  let f := if f < 16646946 then 16646946 else f
  if f > 21989530 then 21989530 else f

/-- `update_bandwidth`: refresh `fairness_rat` from the ack-driven bandwidth
and the inflight throughput. -/
def update_bandwidth (s : Scc) (tp : Tp) : Scc :=
  { s with fairness_rat := fairness_rat (bandwidth s) (inflight_throughput s tp) }

/-- The policed-link criterion tested in `scc_lt_bw_interval_done`:
the new interval bw is within 1/8 (or 500 bytes/s) of the stored `lt_bw`.
`diff = abs(bw - lt_bw)` is the kernel `abs` of the signed 32-bit
difference. -/
def lt_bw_close (s : Scc) (tp : Tp) (bw : Nat) : Bool :=
  let d := u32sub bw s.lt_bw
  let diff := if d < 2147483648 then d else U32 - d
  decide ((diff * BBR_UNIT) % U32 ≤ (32 * s.lt_bw) % U32 ∨
    scc_rate_bytes_per_sec tp diff BBR_UNIT ≤ bbr_lt_bw_diff)

/-- `scc_lt_bw_interval_done`: either conclude the link is policed (average
the two interval bandwidths, set `lt_use_bw` and force `pacing_gain` to
`BBR_UNIT`) or store the interval bw and restart the interval. -/
def scc_lt_bw_interval_done (s : Scc) (tp : Tp) (bw : Nat) : Scc :=
  if s.lt_bw ≠ 0 ∧ lt_bw_close s tp bw then
    { s with lt_bw := (bw + s.lt_bw) % U32 / 2, lt_use_bw := true, pacing_gain := BBR_UNIT }
  else
    scc_reset_lt_bw_sampling_interval { s with lt_bw := bw % U32 } tp

/-- The `lt_use_bw` branch of `scc_lt_bw_sampling`: count PROBE_BW round
trips and leave the long-term rate after `bbr_lt_bw_max_rtts` of them. -/
def scc_lt_bw_sampling_using (s : Scc) (tp : Tp) : Scc :=
  if s.current_mode = MODE_PROBE_BW ∧ s.round_start then
    let s := { s with lt_rtt_cnt := (s.lt_rtt_cnt + 1) % 128 }
    if s.lt_rtt_cnt ≥ bbr_lt_bw_max_rtts then scc_reset_lt_bw_sampling s tp else s
  else s

/-- The loss-ratio and interval-length checks at the end of
`scc_lt_bw_sampling` (from `lost = tp->lost - ...` to the
`scc_lt_bw_interval_done` call). -/
def scc_lt_bw_sampling_measure (s : Scc) (tp : Tp) : Scc :=
  let lost := u32sub tp.lost s.lt_last_lost
  let delivered := u32sub tp.delivered s.lt_last_delivered
  if delivered = 0 ∨ (lost * 256) % U32 < (bbr_lt_loss_thresh * delivered) % U32 then s
  else
    let t := u32sub (tp.delivered_mstamp / 1000) s.lt_last_stamp
    if t = 0 ∨ t ≥ 2147483648 then s
    else if t ≥ 4294967 then scc_reset_lt_bw_sampling s tp
    else
      let t := t * 1000
      let bw := delivered * BW_UNIT / t
      scc_lt_bw_interval_done s tp (bw % U32)

/-- The round-trip counting part of `scc_lt_bw_sampling` (from
`if (scc->round_start)` on). -/
def scc_lt_bw_sampling_round (s : Scc) (tp : Tp) (rs : RateSample) : Scc :=
  let s := if s.round_start then { s with lt_rtt_cnt := (s.lt_rtt_cnt + 1) % 128 } else s
  if s.lt_rtt_cnt < bbr_lt_intvl_min_rtts then s
  else if s.lt_rtt_cnt > 4 * bbr_lt_intvl_min_rtts then scc_reset_lt_bw_sampling s tp
  else if rs.losses = 0 then s
  else scc_lt_bw_sampling_measure s tp

/-- `scc_lt_bw_sampling`: the long-term (policed link) bandwidth sampler. -/
def scc_lt_bw_sampling (s : Scc) (tp : Tp) (rs : RateSample) : Scc :=
  if s.lt_use_bw then scc_lt_bw_sampling_using s tp
  else if ¬ s.lt_is_sampling ∧ rs.losses = 0 then s
  else
    let s := if ¬ s.lt_is_sampling then
      { scc_reset_lt_bw_sampling_interval s tp with lt_is_sampling := true } else s
    if rs.is_app_limited then scc_reset_lt_bw_sampling s tp
    else scc_lt_bw_sampling_round s tp rs

/-- `scc_bdp`: `ceil(bw * last_min_rtt * gain / 2^48)`, with the
`TCP_INIT_CWND` escape when no min-RTT sample exists yet. -/
def scc_bdp (s : Scc) (bw gain : Nat) : Nat :=
  if s.last_min_rtt = 4294967295 then TCP_INIT_CWND
  else
    let w := (bw * s.last_min_rtt) % U64
    ((w * gain) % U64 / BW_UNIT + BW_UNIT - 1) / BW_UNIT % U32

/-- `scc_inflight` is `scc_bdp`. -/
def scc_inflight (s : Scc) (bw gain : Nat) : Nat := scc_bdp s bw gain

/-- `scc_max_bw`: the larger of the max-filtered sample bw and the
ack-driven bw, unless `loss_cnt` has reached 50. -/
def scc_max_bw (s : Scc) : Nat :=
  if s.loss_cnt < 50 then max s.bw (bandwidth s % U32) else s.bw

/-- `scc_bw`: the bandwidth used for pacing/cwnd, overridden by `lt_bw`. -/
def scc_bw (s : Scc) : Nat :=
  if s.lt_use_bw then s.lt_bw else scc_max_bw s

/-- `scc_packets_in_net_at_edt`: inflight corrected by what will be
delivered until the earliest departure time. -/
def scc_packets_in_net_at_edt (s : Scc) (tp : Tp) (inflight_now : Nat) : Nat :=
  let now_ns := tp.tcp_clock_cache
  let edt_ns := max tp.tcp_wstamp_ns now_ns
  let interval_us := (edt_ns - now_ns) / 1000
  let interval_delivered := (scc_bw s * interval_us) % U64 / BW_UNIT % U32
  if interval_delivered ≥ inflight_now then 0 else inflight_now - interval_delivered

/-- `scc_is_next_cycle_phase`: returns the phase-advance decision and the
state with `cycle_mstamp` re-anchored. -/
def scc_is_next_cycle_phase (s : Scc) (tp : Tp) (rs : RateSample) : Bool × Scc :=
  let is_full_length := decide (tcp_stamp_us_delta tp.tcp_wstamp_ns s.cycle_mstamp > 1)
  let s := { s with cycle_mstamp := tp.tcp_wstamp_ns % U64 }
  let bw := scc_bw s
  let inflight := scc_packets_in_net_at_edt s tp rs.prior_in_flight
  if s.pacing_gain = BBR_UNIT then (is_full_length, s)
  else if s.pacing_gain > BBR_UNIT then
    (is_full_length && decide (rs.losses ≠ 0 ∨ inflight ≥ scc_inflight s bw s.pacing_gain), s)
  else
    (is_full_length || decide (inflight ≤ scc_inflight s bw s.cwnd_gain), s)

/-- Per-sample delivery rate `delivered * 2^24 / interval_us` (u64), as
computed in `scc_update_bw` on a valid sample. -/
def sample_bw (rs : RateSample) : Nat :=
  rs.delivered.toNat * BW_UNIT / rs.interval_us.toNat

/-- `scc_update_bw`: round-trip edge detection, the lt sampler, and the
max-bw filter update.  Invalid samples only clear `round_start`. -/
def scc_update_bw (s : Scc) (tp : Tp) (rs : RateSample) : Scc :=
  let s := { s with round_start := false }
  if rs.delivered < 0 ∨ rs.interval_us ≤ 0 then s
  else
    let s := if ¬ u32before rs.prior_delivered s.delivered then
      { s with delivered := (tp.delivered * SCC_MIN_SEGMENT_SIZE) % U32,
               rtt_cnt := (s.rtt_cnt + 1) % U32,
               round_start := true } else s
    let s := scc_lt_bw_sampling s tp rs
    let bw := sample_bw rs
    if ¬ rs.is_app_limited ∨ bw ≥ scc_max_bw s then { s with bw := bw % U32 } else s

/-- `update_min_rtt`: the RTT estimator; shifts `last_rtt`, refreshes
`curr_rtt` from the host's srtt (nominal `MIN_RTT_US` when none), updates
the windowed minimum and clamps it by `curr_rtt`, and advances the 6-bit
epoch counter. -/
def update_min_rtt (s : Scc) (tp : Tp) (rs : RateSample) : Scc :=
  let new_min_rtt := u32after tp.jiffies ((s.last_min_rtt_stamp + SCC_MIN_RTT_WIN_SEC * HZ) % U32)
  let lr := s.curr_rtt
  let cr := if tp.srtt_us ≠ 0 then tp.srtt_us / 8 else MIN_RTT_US
  let lr := if tp.srtt_us ≠ 0 ∧ lr = 0 then cr else lr
  let m := if cr < s.last_min_rtt ∨ s.last_min_rtt = 0 then cr else s.last_min_rtt
  let c2 := 0 < rs.rtt_us ∧ (rs.rtt_us < (m : Int) ∨ (new_min_rtt ∧ ¬ rs.is_ack_delayed))
  let stamp := if c2 then tp.jiffies else s.last_min_rtt_stamp
  let m := if c2 then rs.rtt_us.toNat % U32 else m
  let m := if m = 0 then MIN_RTT_US else m
  let m := if m > cr then cr else m
  { s with last_rtt := lr, curr_rtt := cr, last_min_rtt := m,
           last_min_rtt_stamp := stamp, epp := (s.epp + 1) % 64 }

/-- `spline_max_cwnd`: `fairness_rat * curr_cwnd >> 24` with a floor of
`2 * SCC_MIN_SND_CWND` (the `throughput`/`bw` locals of the source are dead
and omitted). -/
def spline_max_cwnd (s : Scc) : Nat :=
  let tmp := (s.fairness_rat * s.curr_cwnd) % U64 / BW_UNIT
  let max_could_cwnd := tmp % U32
  if max_could_cwnd ≠ 0 then max_could_cwnd else SCC_MIN_SND_CWND * 2

/-- `start_probe`: additive cwnd growth during START. -/
def start_probe (s : Scc) : Scc :=
  let s := { s with curr_cwnd := (s.curr_cwnd + SCC_MIN_SND_CWND) % U32 }
  { s with curr_cwnd := max s.curr_cwnd SCC_MIN_SND_CWND }

/-- `check_drain_probe`: override the mode to DRAIN when neither stability
check holds and losses in the lt interval exceed
`(scc_lt_loss_thresh + 1) * 3 << 1 = 24`. -/
def check_drain_probe (s : Scc) : Scc :=
  if ¬ rtt_check s ∧ ¬ ack_check s ∧ s.lt_last_lost > (scc_lt_loss_thresh + 1) * 3 * 2 then
    { s with current_mode := MODE_DRAIN_PROBE }
  else s

/-- `check_epoch_probes_rtt_bw`: choose PROBE_RTT or PROBE_BW from the trust
factor and the fairness votes. -/
def check_epoch_probes_rtt_bw (s : Scc) : Scc :=
  let tf := percent_gain s.lt_last_lost s.stable_flag s.unfair_flag
  if tf < thresh_tf ∨ s.unfair_flag > s.stable_flag then
    { s with current_mode := MODE_PROBE_RTT }
  else
    { s with current_mode := MODE_PROBE_BW }

/-- `check_probes`: at the end of an epoch, reset `epp`, draw the next epoch
length (`r` models `get_random_u32()`), and run the mode decision. -/
def check_probes (s : Scc) (r : Nat) : Scc :=
  if s.epp = s.EPOCH_ROUND then
    let s := { s with epp := 0 }
    let s := if s.start_phase then { s with EPOCH_ROUND := 20, start_phase := false }
             else { s with EPOCH_ROUND := 1 + r % 31 }
    check_drain_probe (check_epoch_probes_rtt_bw s)
  else s

/-- Denominator of the division in `spline_cwnd_gain`:
`(bandwidth * USEC_PER_SEC) / rtt`, floored at `MIN_BW` when zero. -/
def spline_cwnd_gain_denom (s : Scc) : Nat :=
  let rtt := if s.last_min_rtt ≠ 0 then s.last_min_rtt else MIN_RTT_US
  let denom := (bandwidth s * 1000000) % U64 / rtt
  if denom = 0 then MIN_BW else denom

/-- `spline_cwnd_gain`: `cwnd << 24` over the bw-per-rtt denominator. -/
def spline_cwnd_gain (s : Scc) (cwnd : Nat) : Nat :=
  (cwnd * BW_UNIT) % U64 / spline_cwnd_gain_denom s % U32

/-- `cwnd_gain`: `spline_cwnd_gain` at `curr_ack`, clamped to
`[6646946, 37390997]`. -/
def cwnd_gain (s : Scc) : Nat :=
  let g := spline_cwnd_gain s s.curr_ack
  let g := if g < 6646946 then 6646946 else g
  if g > 37390997 then 37390997 else g

/-- `gains_mode`: per-mode pacing gain (and the DRAIN cwnd gain).  It does
not consult `lt_use_bw`. -/
def gains_mode (s : Scc) : Scc :=
  match s.current_mode with
  | MODE_PROBE_BW => { s with pacing_gain := bbr_high_gain }
  | MODE_PROBE_RTT => { s with pacing_gain := bbr_rtt_gain }
  | MODE_DRAIN_PROBE => { s with pacing_gain := bbr_drain_gain, cwnd_gain := scc_drain_gain }
  | MODE_START_PROBE => { s with pacing_gain := bbr_high_gain }

/-- The averaged RTT computed and returned by `spline_gain`:
`(last_min_rtt + curr_rtt) >> 1` in u32, floored at `MIN_RTT_US`. -/
def spline_gain_rtt (s : Scc) : Nat :=
  let rtt := (s.last_min_rtt + s.curr_rtt) % U32 / 2
  if rtt ≠ 0 then rtt else MIN_RTT_US

/-- `spline_gain`: assigns `pacing_gain` (via `gains_mode`), the composite
`gain` (u32-truncated) and `cwnd_gain`, and returns the averaged RTT. -/
def spline_gain (s : Scc) : Scc × Nat :=
  let bw := bandwidth s % U32
  let s := gains_mode s
  let cwnd_spline_gain := cwnd_gain s
  let rtt := spline_gain_rtt s
  let gain := (cwnd_spline_gain * bw) % U64
  let gain := (gain * rtt) % U64
  let gain := if gain < 646946 then 646946 else gain
  ({ s with gain := gain % U32, cwnd_gain := cwnd_spline_gain }, rtt)

/-- Denominator of the division in `cwnd_loss_phase`:
`(rtt + curr_rtt) >> 1` in u32. -/
def cwnd_loss_phase_denom (s : Scc) (rtt : Nat) : Nat :=
  (rtt + s.curr_rtt) % U32 / 2

/-- `cwnd_loss_phase`: gain over the re-averaged RTT, scaled by
`fairness_rat`. -/
def cwnd_loss_phase (s : Scc) (gain rtt : Nat) : Nat :=
  let cwnd := gain / cwnd_loss_phase_denom s rtt % U32
  (s.fairness_rat * cwnd) % U64 / BW_UNIT % U32

/-- `cwnd_stable_phase`: gain over the averaged RTT, shifted down by 24. -/
def cwnd_stable_phase (gain rtt : Nat) : Nat :=
  gain / rtt % U32 / BW_UNIT

/-- `loss_backoff_cwnd`: exponential backoff `cwnd * ls^3 / 2^ls` once
`loss_cnt` exceeds 9 (with `ls` capped at 12). -/
def loss_backoff_cwnd (s : Scc) : Scc :=
  let ls := if s.loss_cnt > 12 then 12 else s.loss_cnt
  if ls > 9 then
    { s with curr_cwnd := (s.curr_cwnd * ls * ls * ls) % U32 / 2 ^ ls }
  else s

/-- `spline_cwnd_next_gain`: compute the next `curr_cwnd` from the composite
gain, the loss/stable variants, the loss backoff and the trust factor (the
`bw` local of the source is dead and omitted). -/
def spline_cwnd_next_gain (s : Scc) (tp : Tp) (rs : RateSample) : Scc :=
  let p := spline_gain s
  let s := p.1
  let rtt := p.2
  let cwnd := spline_max_cwnd s / 8
  let tf := percent_gain s.lt_last_lost s.stable_flag s.unfair_flag
  let s := if s.unfair_flag > 2000 ∨ ¬ check_high_rtt s ∨ s.loss_cnt > 10 then
    { s with curr_cwnd := cwnd_loss_phase s s.gain rtt }
  else
    { s with curr_cwnd := cwnd_stable_phase s.gain rtt }
  let s := loss_backoff_cwnd s
  let tf := if tf < min_thesh_tf then min_thesh_tf else tf
  let s := { s with curr_cwnd := (s.curr_cwnd * tf) % U64 / BW_UNIT % U32 }
  let s := { s with curr_cwnd := max s.curr_cwnd cwnd }
  { s with curr_cwnd := (s.curr_cwnd + rs.acked_sacked) % U32 }

/-- `update_probes`: run the phase check, then the per-mode cwnd update. -/
def update_probes (s : Scc) (tp : Tp) (rs : RateSample) (r : Nat) : Scc :=
  let s := check_probes s r
  match s.current_mode with
  | MODE_START_PROBE => start_probe { s with pacing_gain := bbr_start_gain }
  | _ => spline_cwnd_next_gain s tp rs

/-- `update_last_acked_sacked`: shift `last_ack` and derive `curr_ack` in
bytes from the sample's delivered count (zero on an out-of-range count; the
`rs == NULL` branch of the source is unreachable from `cong_control`). -/
def update_last_acked_sacked (s : Scc) (tp : Tp) (rs : RateSample) : Scc :=
  let segment_size := if tp.mss_cache ≠ 0 then tp.mss_cache else SCC_MIN_SEGMENT_SIZE
  let s := { s with last_ack := s.curr_ack }
  if rs.delivered < 0 ∨ rs.delivered > 2147483647 then { s with curr_ack := 0 }
  else { s with curr_ack := (rs.delivered.toNat * segment_size) % U32 }

/-- `spline_update`: the per-ack update pipeline. -/
def spline_update (s : Scc) (tp : Tp) (rs : RateSample) (r : Nat) : Scc :=
  let s := update_min_rtt s tp rs
  let s := update_last_acked_sacked s tp rs
  let p := scc_is_next_cycle_phase s tp rs
  let s := if p.1 || p.2.start_phase then update_bandwidth p.2 tp else p.2
  let s := scc_update_bw s tp rs
  let s := fairness_check s
  let s := high_rtt_round s tp
  let s := stable_check s
  let s := loss_rate s tp
  update_probes s tp rs r

/-- `next_cwnd`: fuse the BDP-derived target with the computed cwnd based on
the trust factor and the fairness votes. -/
def next_cwnd (s : Scc) (target_cwnd cwnd : Nat) : Nat :=
  let tf := percent_gain s.lt_last_lost s.stable_flag s.unfair_flag
  if tf < thresh_tf ∧ ¬ s.start_phase ∧ s.loss_cnt > 50 then cwnd
  else if ((s.unfair_flag > 2000 ∧ s.stable_flag < 300) ∨
      s.unfair_flag > s.stable_flag + 500) ∧ s.loss_cnt > 5 then
    ((target_cwnd + cwnd) % U32 * 7) % U32 / 16
  else max target_cwnd cwnd

/-- `spline_cwnd_send`: floor the fused cwnd at `SCC_MIN_SND_CWND`, add the
newly acked segments and write it to the host capped at `snd_cwnd_clamp`
(the `tf` local of the source is dead and omitted). -/
def spline_cwnd_send (s : Scc) (sk : Sk) (tp : Tp) (rs : RateSample) (bw : Nat) : Sk :=
  let target_cwnd := scc_bdp s bw s.cwnd_gain
  let cwnd_segments := next_cwnd s target_cwnd s.curr_cwnd
  let cwnd_segments := max cwnd_segments SCC_MIN_SND_CWND
  let cwnd_segments := (cwnd_segments + rs.acked_sacked) % U32
  { sk with snd_cwnd := min cwnd_segments tp.snd_cwnd_clamp }

/-- `spline_main` (`cong_control`): the per-ack entry point. -/
def spline_main (s : Scc) (sk : Sk) (tp : Tp) (rs : RateSample) (r : Nat) : Scc × Sk :=
  let s := { s with curr_cwnd := sk.snd_cwnd }
  let s := spline_update s tp rs r
  let bw := scc_bw s
  let p := bbr_set_pacing_rate s sk tp bw s.pacing_gain
  let s := p.1
  let sk := { p.2 with snd_ssthresh := TCP_INFINITE_SSTHRESH }
  (s, spline_cwnd_send s sk tp rs bw)

/-- The all-zero state: the host zeroes the ca-private block before `init`
(`tcp_init_congestion_control` memsets `icsk_ca_priv`). -/
def sccZero : Scc where
  curr_cwnd := 0
  last_min_rtt := 0
  last_ack := 0
  curr_ack := 0
  fairness_rat := 0
  last_rtt := 0
  curr_rtt := 0
  gain := 0
  cwnd_gain := 0
  cycle_mstamp := 0
  bw := 0
  lt_bw := 0
  last_min_rtt_stamp := 0
  lt_last_stamp := 0
  lt_last_lost := 0
  lt_last_wstamp_ns := 0
  lt_last_delivered := 0
  pacing_gain := 0
  delivered := 0
  rtt_epoch := 0
  unfair_flag := 0
  stable_flag := 0
  rtt_cnt := 0
  epp := 0
  EPOCH_ROUND := 0
  lt_use_bw := false
  current_mode := MODE_START_PROBE
  prev_ca_state := 0
  lt_is_sampling := false
  lt_rtt_cnt := 0
  round_start := false
  has_seen_rtt := false
  high_round := 0
  loss_cnt := 0
  start_phase := false

/-- `spline_init`: per-connection initialisation (note that `start_phase` is
never assigned anywhere in the module, so it stays at the memset value 0). -/
def spline_init (sk : Sk) (tp : Tp) (r : Nat) : Scc × Sk :=
  let s := sccZero
  let s := { s with
    last_min_rtt := tp.min_rtt, curr_rtt := 0, curr_ack := 0, last_ack := 0,
    fairness_rat := 0, epp := 0, curr_cwnd := SCC_MIN_SND_CWND,
    current_mode := MODE_START_PROBE, cycle_mstamp := 0, lt_rtt_cnt := 0,
    EPOCH_ROUND := 10 + r % 31, rtt_epoch := 4000,
    last_min_rtt_stamp := tp.jiffies, high_round := 0, unfair_flag := 0,
    stable_flag := 0, rtt_cnt := 0, loss_cnt := 0 }
  let p := bbr_init_pacing_rate_from_rtt s sk tp
  let s := { p.1 with round_start := false }
  (scc_reset_lt_bw_sampling s tp, p.2)

/-- `spline_save_cwnd`: computes a local `prior_cwnd` and never persists it
(`struct scc` has no such field); `junk` stands for the indeterminate
initial value the else branch reads.  The returned number is the discarded
local. -/
def spline_save_cwnd (s : Scc) (sk : Sk) (junk : Nat) : Scc × Nat :=
  if s.prev_ca_state < 3 ∧ s.current_mode ≠ MODE_PROBE_RTT then (s, sk.snd_cwnd)
  else (s, max junk SCC_MIN_SND_CWND)

/-- `spline_ssthresh`: run `spline_save_cwnd` and return the host's
configured `snd_ssthresh`. -/
def spline_ssthresh (s : Scc) (sk : Sk) (junk : Nat) : Scc × Nat :=
  ((spline_save_cwnd s sk junk).1, sk.snd_ssthresh)

/-- `spline_undo_cwnd`: reset lt sampling, return the host's current cwnd. -/
def spline_undo_cwnd (s : Scc) (sk : Sk) (tp : Tp) : Scc × Nat :=
  (scc_reset_lt_bw_sampling s tp, sk.snd_cwnd)

/-! ### Concrete host states and samples used as test vectors -/

/-- A nominal host state: srtt 100 ms (`srtt_us = 8 * 100000`), mss 1448,
no deliveries yet. -/
def tp0 : Tp where
  srtt_us := 800000
  mss_cache := 1448
  delivered := 0
  lost := 0
  delivered_mstamp := 0
  tcp_wstamp_ns := 0
  tcp_clock_cache := 0
  snd_cwnd_clamp := 1000
  max_pacing_rate := 1099511627776
  jiffies := 0
  packets_in_flight := 0
  min_rtt := 100000

/-- A nominal host socket at connection start. -/
def sk0 : Sk where
  snd_cwnd := 10
  snd_ssthresh := 2147483647
  pacing_rate := 0

/-- An invalid rate sample (`delivered < 0`). -/
def rsInvalid : RateSample where
  delivered := -1
  interval_us := 0
  rtt_us := 0
  losses := 0
  acked_sacked := 0
  prior_in_flight := 0
  prior_delivered := 0
  is_app_limited := false
  is_ack_delayed := false

/-- The state and socket right after `init` on `tp0` (random draw 0, so
`EPOCH_ROUND = 10`). -/
def initP : Scc × Sk := spline_init sk0 tp0 0

/-- A valid lossy sample with the given `prior_delivered`, used to drive the
long-term bandwidth sampler. -/
def rsB (pd : Nat) : RateSample where
  delivered := 0
  interval_us := 100000
  rtt_us := 0
  losses := 1
  acked_sacked := 0
  prior_in_flight := 0
  prior_delivered := pd
  is_app_limited := false
  is_ack_delayed := false

/-- Host state with the given cumulative delivered/lost counters and
delivered timestamp. -/
def tpB (d l ms : Nat) : Tp := { tp0 with delivered := d, lost := l, delivered_mstamp := ms }

/-- A 19-call input trace from `init` that makes the long-term bandwidth
detector conclude the link is policed: nine inert calls, an epoch
transition out of START, a loss that opens an lt sampling interval, two
sampling intervals of four round trips each with identical interval
bandwidth (838 bw-units), after which `scc_lt_bw_interval_done` sets
`lt_use_bw`. -/
def c2Inputs : List (Tp × RateSample × Nat) :=
  [ (tp0, rsInvalid, 0), (tp0, rsInvalid, 0), (tp0, rsInvalid, 0),
    (tp0, rsInvalid, 0), (tp0, rsInvalid, 0), (tp0, rsInvalid, 0),
    (tp0, rsInvalid, 0), (tp0, rsInvalid, 0), (tp0, rsInvalid, 0),
    (tp0, rsInvalid, 30),
    (tpB 0 0 0, rsB 0, 0), (tpB 0 0 0, rsB 0, 0),
    (tpB 0 0 0, rsB 0, 0), (tpB 0 0 0, rsB 0, 0),
    (tpB 5 5 100000, rsB 0, 0),
    (tpB 5 5 100000, rsB 7240, 0), (tpB 5 5 100000, rsB 7240, 0),
    (tpB 5 5 100000, rsB 7240, 0),
    (tpB 10 10 200000, rsB 7240, 0) ]

/-- The run of `spline_main` over `c2Inputs` from the freshly initialised
connection. -/
def c2Run : Scc × Sk :=
  c2Inputs.foldl (fun p q => spline_main p.1 p.2 q.1 q.2.1 q.2.2) initP

/-! ### Frame lemmas: `fairness_rat` is written only by `update_bandwidth` -/

theorem fairness_rat_update_min_rtt (s : Scc) (tp : Tp) (rs : RateSample) :
    (update_min_rtt s tp rs).fairness_rat = s.fairness_rat := rfl

theorem fairness_rat_update_last_acked (s : Scc) (tp : Tp) (rs : RateSample) :
    (update_last_acked_sacked s tp rs).fairness_rat = s.fairness_rat := by
  simp only [update_last_acked_sacked]; split <;> rfl

theorem fairness_rat_cycle_phase (s : Scc) (tp : Tp) (rs : RateSample) :
    (scc_is_next_cycle_phase s tp rs).2.fairness_rat = s.fairness_rat := by
  simp only [scc_is_next_cycle_phase]; split_ifs <;> rfl

theorem fairness_rat_reset_interval (s : Scc) (tp : Tp) :
    (scc_reset_lt_bw_sampling_interval s tp).fairness_rat = s.fairness_rat := rfl

theorem fairness_rat_reset_lt (s : Scc) (tp : Tp) :
    (scc_reset_lt_bw_sampling s tp).fairness_rat = s.fairness_rat := rfl

theorem fairness_rat_interval_done (s : Scc) (tp : Tp) (bw : Nat) :
    (scc_lt_bw_interval_done s tp bw).fairness_rat = s.fairness_rat := by
  unfold scc_lt_bw_interval_done
  split
  · rfl
  · exact fairness_rat_reset_interval _ _

theorem fairness_rat_lt_using (s : Scc) (tp : Tp) :
    (scc_lt_bw_sampling_using s tp).fairness_rat = s.fairness_rat := by
  simp only [scc_lt_bw_sampling_using]
  split_ifs <;> first | rfl | exact fairness_rat_reset_lt _ _

theorem fairness_rat_lt_measure (s : Scc) (tp : Tp) :
    (scc_lt_bw_sampling_measure s tp).fairness_rat = s.fairness_rat := by
  simp only [scc_lt_bw_sampling_measure]
  split_ifs <;> first
    | rfl
    | exact fairness_rat_reset_lt _ _
    | exact fairness_rat_interval_done _ _ _

theorem fairness_rat_lt_round (s : Scc) (tp : Tp) (rs : RateSample) :
    (scc_lt_bw_sampling_round s tp rs).fairness_rat = s.fairness_rat := by
  simp only [scc_lt_bw_sampling_round]
  split_ifs <;> first
    | rfl
    | exact fairness_rat_reset_lt _ _
    | exact fairness_rat_lt_measure _ _

theorem fairness_rat_lt_sampling (s : Scc) (tp : Tp) (rs : RateSample) :
    (scc_lt_bw_sampling s tp rs).fairness_rat = s.fairness_rat := by
  simp only [scc_lt_bw_sampling]
  split_ifs <;> first
    | rfl
    | exact fairness_rat_lt_using _ _
    | exact fairness_rat_reset_lt _ _
    | exact fairness_rat_lt_round _ _ _

theorem fairness_rat_scc_update_bw (s : Scc) (tp : Tp) (rs : RateSample) :
    (scc_update_bw s tp rs).fairness_rat = s.fairness_rat := by
  simp only [scc_update_bw]
  split_ifs <;> first
    | rfl
    | exact fairness_rat_lt_sampling _ _ _
    | simp only [fairness_rat_lt_sampling]

theorem fairness_rat_fairness_check (s : Scc) :
    (fairness_check s).fairness_rat = s.fairness_rat := by
  simp only [fairness_check]; split_ifs <;> rfl

theorem fairness_rat_stable_check (s : Scc) :
    (stable_check s).fairness_rat = s.fairness_rat := by
  simp only [stable_check]; split_ifs <;> rfl

theorem fairness_rat_loss_rate (s : Scc) (tp : Tp) :
    (loss_rate s tp).fairness_rat = s.fairness_rat := by
  simp only [loss_rate]; split_ifs <;> rfl

theorem fairness_rat_high_rtt_round (s : Scc) (tp : Tp) :
    (high_rtt_round s tp).fairness_rat = s.fairness_rat := by
  simp only [high_rtt_round]; split_ifs <;> rfl

theorem fairness_rat_check_epoch (s : Scc) :
    (check_epoch_probes_rtt_bw s).fairness_rat = s.fairness_rat := by
  simp only [check_epoch_probes_rtt_bw]; split <;> rfl

theorem fairness_rat_check_drain (s : Scc) :
    (check_drain_probe s).fairness_rat = s.fairness_rat := by
  simp only [check_drain_probe]; split <;> rfl

theorem fairness_rat_check_probes (s : Scc) (r : Nat) :
    (check_probes s r).fairness_rat = s.fairness_rat := by
  simp only [check_probes]
  split_ifs <;>
    simp only [fairness_rat_check_drain, fairness_rat_check_epoch] <;> rfl

theorem fairness_rat_gains_mode (s : Scc) :
    (gains_mode s).fairness_rat = s.fairness_rat := by
  unfold gains_mode; cases s.current_mode <;> rfl

theorem fairness_rat_spline_gain (s : Scc) :
    (spline_gain s).1.fairness_rat = s.fairness_rat := by
  simp only [spline_gain, fairness_rat_gains_mode]

theorem fairness_rat_loss_backoff (s : Scc) :
    (loss_backoff_cwnd s).fairness_rat = s.fairness_rat := by
  simp only [loss_backoff_cwnd]; split_ifs <;> rfl

theorem fairness_rat_cwnd_next_gain (s : Scc) (tp : Tp) (rs : RateSample) :
    (spline_cwnd_next_gain s tp rs).fairness_rat = s.fairness_rat := by
  simp only [spline_cwnd_next_gain]
  split_ifs <;>
    simp only [fairness_rat_loss_backoff, fairness_rat_spline_gain]

theorem fairness_rat_start_probe (s : Scc) :
    (start_probe s).fairness_rat = s.fairness_rat := rfl

theorem fairness_rat_update_probes (s : Scc) (tp : Tp) (rs : RateSample) (r : Nat) :
    (update_probes s tp rs r).fairness_rat = s.fairness_rat := by
  simp only [update_probes]
  split <;> first
    | exact fairness_rat_check_probes s r
    | (rw [fairness_rat_start_probe]; exact fairness_rat_check_probes s r)
    | (rw [fairness_rat_cwnd_next_gain]; exact fairness_rat_check_probes s r)

theorem fairness_rat_init_pacing (s : Scc) (sk : Sk) (tp : Tp) :
    (bbr_init_pacing_rate_from_rtt s sk tp).1.fairness_rat = s.fairness_rat := by
  simp only [bbr_init_pacing_rate_from_rtt]; split_ifs <;> rfl

theorem fairness_rat_set_pacing (s : Scc) (sk : Sk) (tp : Tp) (bw gain : Nat) :
    (bbr_set_pacing_rate s sk tp bw gain).1.fairness_rat = s.fairness_rat := by
  simp only [bbr_set_pacing_rate]
  split_ifs <;> simp only [fairness_rat_init_pacing]

/-- The clamp in `fairness_rat` really does bound its result, for every
numerator and denominator. -/
theorem fairness_rat_bounds (gamma beta : Nat) :
    16646946 ≤ fairness_rat gamma beta ∧ fairness_rat gamma beta ≤ 21989530 := by
  simp only [fairness_rat]; split_ifs <;> omega

/-! ### Congruence helpers for the phase machine -/

theorem rtt_check_epoch_update (t : Scc) (a b : Nat) (c : Bool) :
    rtt_check { t with epp := a, EPOCH_ROUND := b, start_phase := c } = rtt_check t := rfl

theorem ack_check_epoch_update (t : Scc) (a b : Nat) (c : Bool) :
    ack_check { t with epp := a, EPOCH_ROUND := b, start_phase := c } = ack_check t := rfl

theorem check_epoch_mode (t : Scc) :
    (check_epoch_probes_rtt_bw t).current_mode =
      if percent_gain t.lt_last_lost t.stable_flag t.unfair_flag < thresh_tf ∨
          t.unfair_flag > t.stable_flag then MODE_PROBE_RTT else MODE_PROBE_BW := by
  simp only [check_epoch_probes_rtt_bw]; split <;> rfl

theorem rtt_check_epoch (t : Scc) : rtt_check (check_epoch_probes_rtt_bw t) = rtt_check t := by
  simp only [check_epoch_probes_rtt_bw]; split <;> rfl

theorem ack_check_epoch (t : Scc) : ack_check (check_epoch_probes_rtt_bw t) = ack_check t := by
  simp only [check_epoch_probes_rtt_bw]; split <;> rfl

theorem lt_last_lost_epoch (t : Scc) :
    (check_epoch_probes_rtt_bw t).lt_last_lost = t.lt_last_lost := by
  simp only [check_epoch_probes_rtt_bw]; split <;> rfl

theorem check_drain_mode (t : Scc) :
    (check_drain_probe t).current_mode =
      if ¬ rtt_check t ∧ ¬ ack_check t ∧ t.lt_last_lost > (scc_lt_loss_thresh + 1) * 3 * 2
      then MODE_DRAIN_PROBE else t.current_mode := by
  simp only [check_drain_probe]; split_ifs <;> simp_all

/-! ### Helpers for `update_min_rtt` and the division denominators -/

/-- After `update_min_rtt` the windowed minimum never exceeds the current
smoothed RTT (the final clamp). -/
theorem update_min_rtt_le (s : Scc) (tp : Tp) (rs : RateSample) :
    (update_min_rtt s tp rs).last_min_rtt ≤ (update_min_rtt s tp rs).curr_rtt := by
  simp only [update_min_rtt]
  split_ifs <;> simp_all <;> omega

/-- After `update_min_rtt` the windowed minimum is positive, provided the
new `curr_rtt` is (i.e. `srtt_us` is 0 or at least 8). -/
theorem update_min_rtt_pos (s : Scc) (tp : Tp) (rs : RateSample)
    (h : tp.srtt_us = 0 ∨ 8 ≤ tp.srtt_us) :
    0 < (update_min_rtt s tp rs).last_min_rtt := by
  simp only [update_min_rtt]
  split_ifs <;> simp_all <;> omega

/-! ### Claim theorems -/

/-- C10: `spline_ssthresh` leaves the whole per-connection state unchanged
(the computed `prior_cwnd` is a discarded local; `struct scc` has no field
for it) and returns the host's configured `snd_ssthresh`. -/
theorem c10_ssthresh_frame (s : Scc) (sk : Sk) (junk : Nat) :
    (spline_ssthresh s sk junk).1 = s ∧ (spline_ssthresh s sk junk).2 = sk.snd_ssthresh := by
  refine ⟨?_, rfl⟩
  unfold spline_ssthresh spline_save_cwnd
  split <;> rfl

/-- C8 (confirmed): when `epp = EPOCH_ROUND` the phase machine picks
PROBE_RTT iff `tf < THRESH_TF` or `unfair_flag > stable_flag` (else
PROBE_BW), overridden to DRAIN iff neither `rtt_check` nor `ack_check`
holds and `lt_last_lost > (scc_lt_loss_thresh + 1) * 6`; when
`epp ≠ EPOCH_ROUND` the mode is unchanged. -/
theorem c8_phase_decision (s : Scc) (r : Nat) :
    (check_probes s r).current_mode =
      if s.epp = s.EPOCH_ROUND then
        if ¬ rtt_check s ∧ ¬ ack_check s ∧ s.lt_last_lost > (scc_lt_loss_thresh + 1) * 6
        then MODE_DRAIN_PROBE
        else if percent_gain s.lt_last_lost s.stable_flag s.unfair_flag < thresh_tf ∨
            s.unfair_flag > s.stable_flag then MODE_PROBE_RTT
        else MODE_PROBE_BW
      else s.current_mode := by
  simp only [check_probes]
  by_cases h : s.epp = s.EPOCH_ROUND
  · simp only [if_pos h]
    cases hsp : s.start_phase <;>
      simp only [hsp, Bool.false_eq_true, if_false, if_true, check_drain_mode,
        rtt_check_epoch, ack_check_epoch, lt_last_lost_epoch, check_epoch_mode,
        rtt_check_epoch_update, ack_check_epoch_update] <;>
      norm_num
  · simp [h]

/-- C5 (amended): after any `cong_control` call, `fairness_rat` either
keeps its previous value (when the cycle-phase condition skips
`update_bandwidth`) or lies in the clamp range `[16646946, 21989530]`. -/
theorem c5_fairness_rat_zero_or_clamped (s : Scc) (sk : Sk) (tp : Tp) (rs : RateSample)
    (r : Nat) :
    (spline_main s sk tp rs r).1.fairness_rat = s.fairness_rat ∨
    (16646946 ≤ (spline_main s sk tp rs r).1.fairness_rat ∧
      (spline_main s sk tp rs r).1.fairness_rat ≤ 21989530) := by
  simp only [spline_main, spline_update]
  split_ifs with h
  · right
    simp only [fairness_rat_set_pacing, fairness_rat_update_probes, fairness_rat_loss_rate,
      fairness_rat_stable_check, fairness_rat_high_rtt_round, fairness_rat_fairness_check,
      fairness_rat_scc_update_bw, update_bandwidth]
    exact fairness_rat_bounds _ _
  · left
    simp only [fairness_rat_set_pacing, fairness_rat_update_probes, fairness_rat_loss_rate,
      fairness_rat_stable_check, fairness_rat_high_rtt_round, fairness_rat_fairness_check,
      fairness_rat_scc_update_bw, fairness_rat_cycle_phase, fairness_rat_update_last_acked,
      fairness_rat_update_min_rtt]

/-- C5 counterexample: after `init`, an ack whose rate sample does not
trigger the cycle-phase condition leaves `fairness_rat` at 0, outside the
claimed clamp range. -/
theorem c5_counterexample :
    (spline_main initP.1 initP.2 tp0
        { rsInvalid with prior_in_flight := 5 } 0).1.fairness_rat = 0 ∧
    ¬ 16646946 ≤ (spline_main initP.1 initP.2 tp0
        { rsInvalid with prior_in_flight := 5 } 0).1.fairness_rat := by
  constructor <;> decide

/-- C4 (amended): `update_min_rtt` always clamps `last_min_rtt` to
`curr_rtt`, and leaves it positive provided the new `curr_rtt` is positive,
i.e. the host srtt is absent (0) or at least 8 (so `srtt >> 3 ≠ 0`). -/
theorem c4_min_rtt_clamped (s : Scc) (tp : Tp) (rs : RateSample)
    (h : tp.srtt_us = 0 ∨ 8 ≤ tp.srtt_us) :
    0 < (update_min_rtt s tp rs).last_min_rtt ∧
    (update_min_rtt s tp rs).last_min_rtt ≤ (update_min_rtt s tp rs).curr_rtt :=
  ⟨update_min_rtt_pos s tp rs h, update_min_rtt_le s tp rs⟩

/-- C4 witness: the amended theorem at the nominal host state. -/
theorem c4_min_rtt_clamped_witness :
    0 < (update_min_rtt initP.1 tp0 rsInvalid).last_min_rtt ∧
    (update_min_rtt initP.1 tp0 rsInvalid).last_min_rtt ≤
      (update_min_rtt initP.1 tp0 rsInvalid).curr_rtt :=
  c4_min_rtt_clamped initP.1 tp0 rsInvalid (Or.inr (by decide))

/-- C4 counterexample: with `srtt_us = 1` (so `curr_rtt = srtt >> 3 = 0`)
the final clamp drives `last_min_rtt` to 0, refuting `last_min_rtt > 0`. -/
theorem c4_counterexample :
    (update_min_rtt initP.1 { tp0 with srtt_us := 1 } rsInvalid).last_min_rtt = 0 ∧
    ¬ 0 < (update_min_rtt initP.1 { tp0 with srtt_us := 1 } rsInvalid).last_min_rtt := by
  constructor <;> decide

/-- C2 (amended): whenever `scc_lt_bw_interval_done` turns `lt_use_bw` on,
it simultaneously forces `pacing_gain = BBR_UNIT = 256`. -/
theorem c2_lt_activation_sets_unit_gain (s : Scc) (tp : Tp) (bw : Nat)
    (h : s.lt_use_bw = false) :
    (scc_lt_bw_interval_done s tp bw).lt_use_bw = true →
    (scc_lt_bw_interval_done s tp bw).pacing_gain = 256 := by
  unfold scc_lt_bw_interval_done scc_reset_lt_bw_sampling_interval
  split
  · intro _; rfl
  · intro hx; simp at hx; exact absurd hx (by simp [h])

/-- C2 witness: the amended theorem at a state whose stored `lt_bw`
matches the new interval bandwidth exactly. -/
theorem c2_lt_activation_sets_unit_gain_witness :
    (scc_lt_bw_interval_done { sccZero with lt_bw := 838 } tp0 838).pacing_gain = 256 :=
  c2_lt_activation_sets_unit_gain { sccZero with lt_bw := 838 } tp0 838 (by decide)
    (by decide)

set_option maxRecDepth 100000 in
/-- C2 counterexample: a 19-call reachable run activates the long-term
bandwidth override, and the very same `cong_control` call then overwrites
`pacing_gain` with the PROBE_RTT gain 250 through `gains_mode`, so the
final state has `lt_use_bw` set with `pacing_gain ≠ 256`. -/
theorem c2_counterexample :
    c2Run.1.lt_use_bw = true ∧ c2Run.1.pacing_gain = 250 ∧
    c2Run.1.pacing_gain ≠ 256 := by
  refine ⟨by decide, by decide, by decide⟩

/-- C3: the counter "saturation" guards are width-broken, so the counters
wrap.  At `unfair_flag = 65535` (below the claimed cap 2^16) a failed
stability round wraps it to 0; at `stable_flag = 65535` a stable round
wraps it to 0; at `loss_cnt = 255` (the claimed cap) a lossy round wraps it
to 0 — each refuting "the new value is the old value or old value + 1 and
the counter never jumps to 0". -/
theorem c3_counters_wrap :
    (fairness_check { sccZero with unfair_flag := 65535 }).unfair_flag = 0 ∧
    (stable_check { sccZero with
                    last_min_rtt := 100000, curr_rtt := 102000,
                    last_rtt := 100500, rtt_epoch := 8000, curr_ack := 5000,
                    last_ack := 100, stable_flag := 65535 }).stable_flag = 0 ∧
    (loss_rate { sccZero with loss_cnt := 255 } { tp0 with lost := 1000 }).loss_cnt = 0 := by
  refine ⟨by decide, by decide, by decide⟩

/-- C1 (amended): `spline_cwnd_send` never writes more than
`snd_cwnd_clamp`, and it writes at least `SCC_MIN_SND_CWND` provided the
clamp itself is at least 10 and the u32 addition of `acked_sacked` does not
wrap; the upper bound holds for `spline_main` unconditionally. -/
theorem c1_cwnd_within_clamp (s : Scc) (sk : Sk) (tp : Tp) (rs : RateSample) (bw : Nat)
    (s2 : Scc) (sk2 : Sk) (r : Nat)
    (hclamp : 10 ≤ tp.snd_cwnd_clamp)
    (hadd : max (next_cwnd s (scc_bdp s bw s.cwnd_gain) s.curr_cwnd) SCC_MIN_SND_CWND
        + rs.acked_sacked < 4294967296) :
    (10 ≤ (spline_cwnd_send s sk tp rs bw).snd_cwnd ∧
      (spline_cwnd_send s sk tp rs bw).snd_cwnd ≤ tp.snd_cwnd_clamp) ∧
    (spline_main s2 sk2 tp rs r).2.snd_cwnd ≤ tp.snd_cwnd_clamp := by
  refine ⟨⟨?_, ?_⟩, ?_⟩
  · simp only [spline_cwnd_send]
    rw [Nat.mod_eq_of_lt hadd]
    simp only [SCC_MIN_SND_CWND] at *
    omega
  · simp only [spline_cwnd_send]
    omega
  · simp only [spline_main, spline_cwnd_send]
    omega

/-- C1 witness: the amended bounds at a concrete state and sample. -/
theorem c1_cwnd_within_clamp_witness :
    (10 ≤ (spline_cwnd_send sccZero sk0 tp0 rsInvalid 0).snd_cwnd ∧
      (spline_cwnd_send sccZero sk0 tp0 rsInvalid 0).snd_cwnd ≤ tp0.snd_cwnd_clamp) ∧
    (spline_main sccZero sk0 tp0 rsInvalid 0).2.snd_cwnd ≤ tp0.snd_cwnd_clamp :=
  c1_cwnd_within_clamp sccZero sk0 tp0 rsInvalid 0 sccZero sk0 0 (by decide) (by decide)

set_option maxRecDepth 100000 in
/-- C1 counterexample: with `snd_cwnd_clamp = 5` the cwnd written by
`cong_control` from the freshly initialised (reachable) state is 5,
refuting the claimed lower bound `SCC_MIN_SND_CWND ≤ output_cwnd`. -/
theorem c1_counterexample :
    (spline_main initP.1 initP.2 { tp0 with snd_cwnd_clamp := 5 } rsInvalid 0).2.snd_cwnd = 5 ∧
    ¬ 10 ≤ (spline_main initP.1 initP.2 { tp0 with snd_cwnd_clamp := 5 }
        rsInvalid 0).2.snd_cwnd := by
  refine ⟨by decide, by decide⟩

/-- C6 (confirmed): on an invalid sample (`delivered < 0` or
`interval_us ≤ 0`), `scc_update_bw` only clears `round_start` — the bw
filter, the delivered round anchor, `rtt_cnt` and all long-term sampling
state are untouched — while `spline_update` still runs the RTT update and
the fairness/stability/loss counter updates. -/
theorem c6_invalid_sample_skips_bw (s s' : Scc) (tp : Tp) (rs : RateSample) (r : Nat)
    (h : rs.delivered < 0 ∨ rs.interval_us ≤ 0) :
    scc_update_bw s' tp rs = { s' with round_start := false } ∧
    spline_update s tp rs r =
      (let s1 := update_min_rtt s tp rs
       let s2 := update_last_acked_sacked s1 tp rs
       let p := scc_is_next_cycle_phase s2 tp rs
       let s3 := if p.1 || p.2.start_phase then update_bandwidth p.2 tp else p.2
       update_probes (loss_rate (stable_check (high_rtt_round (fairness_check
         { s3 with round_start := false }) tp)) tp) tp rs r) := by
  have key : ∀ t : Scc, scc_update_bw t tp rs = { t with round_start := false } := by
    intro t
    simp only [scc_update_bw]
    rw [if_pos h]
  refine ⟨key s', ?_⟩
  simp only [spline_update]
  rw [key]

/-- C6 witness: the skip behaviour at the initial state and the invalid
sample with `delivered = -1`. -/
theorem c6_invalid_sample_skips_bw_witness :
    scc_update_bw initP.1 tp0 rsInvalid = { initP.1 with round_start := false } ∧
    spline_update initP.1 tp0 rsInvalid 0 =
      (let s1 := update_min_rtt initP.1 tp0 rsInvalid
       let s2 := update_last_acked_sacked s1 tp0 rsInvalid
       let p := scc_is_next_cycle_phase s2 tp0 rsInvalid
       let s3 := if p.1 || p.2.start_phase then update_bandwidth p.2 tp0 else p.2
       update_probes (loss_rate (stable_check (high_rtt_round (fairness_check
         { s3 with round_start := false }) tp0)) tp0) tp0 rsInvalid 0) :=
  c6_invalid_sample_skips_bw initP.1 initP.1 tp0 rsInvalid 0 (by decide)

/-! ### Frame lemmas: the lt sampler changes neither `bw` nor `scc_max_bw` -/

theorem maxbw_reset_interval (t : Scc) (tp : Tp) :
    scc_max_bw (scc_reset_lt_bw_sampling_interval t tp) = scc_max_bw t ∧
    (scc_reset_lt_bw_sampling_interval t tp).bw = t.bw := ⟨rfl, rfl⟩

theorem maxbw_reset_lt (t : Scc) (tp : Tp) :
    scc_max_bw (scc_reset_lt_bw_sampling t tp) = scc_max_bw t ∧
    (scc_reset_lt_bw_sampling t tp).bw = t.bw := ⟨rfl, rfl⟩

theorem maxbw_interval_done (t : Scc) (tp : Tp) (bw : Nat) :
    scc_max_bw (scc_lt_bw_interval_done t tp bw) = scc_max_bw t ∧
    (scc_lt_bw_interval_done t tp bw).bw = t.bw := by
  unfold scc_lt_bw_interval_done
  split <;> exact ⟨rfl, rfl⟩

theorem maxbw_lt_using (t : Scc) (tp : Tp) :
    scc_max_bw (scc_lt_bw_sampling_using t tp) = scc_max_bw t ∧
    (scc_lt_bw_sampling_using t tp).bw = t.bw := by
  simp only [scc_lt_bw_sampling_using]
  split_ifs <;> exact ⟨rfl, rfl⟩

theorem maxbw_lt_measure (t : Scc) (tp : Tp) :
    scc_max_bw (scc_lt_bw_sampling_measure t tp) = scc_max_bw t ∧
    (scc_lt_bw_sampling_measure t tp).bw = t.bw := by
  simp only [scc_lt_bw_sampling_measure]
  split_ifs <;> first
    | exact ⟨rfl, rfl⟩
    | exact maxbw_interval_done _ _ _

theorem maxbw_lt_round (t : Scc) (tp : Tp) (rs : RateSample) :
    scc_max_bw (scc_lt_bw_sampling_round t tp rs) = scc_max_bw t ∧
    (scc_lt_bw_sampling_round t tp rs).bw = t.bw := by
  simp only [scc_lt_bw_sampling_round]
  split_ifs <;> first
    | exact ⟨rfl, rfl⟩
    | exact ⟨(maxbw_reset_lt _ _).1.trans rfl, (maxbw_reset_lt _ _).2.trans rfl⟩
    | exact ⟨(maxbw_lt_measure _ _).1.trans rfl, (maxbw_lt_measure _ _).2.trans rfl⟩

theorem maxbw_lt_sampling (t : Scc) (tp : Tp) (rs : RateSample) :
    scc_max_bw (scc_lt_bw_sampling t tp rs) = scc_max_bw t ∧
    (scc_lt_bw_sampling t tp rs).bw = t.bw := by
  simp only [scc_lt_bw_sampling]
  split_ifs <;> first
    | exact ⟨rfl, rfl⟩
    | exact maxbw_lt_using _ _
    | exact ⟨(maxbw_reset_lt _ _).1.trans rfl, (maxbw_reset_lt _ _).2.trans rfl⟩
    | exact ⟨(maxbw_lt_round _ _ _).1.trans rfl, (maxbw_lt_round _ _ _).2.trans rfl⟩

theorem le_scc_max_bw (t : Scc) : t.bw ≤ scc_max_bw t := by
  unfold scc_max_bw
  split
  · exact le_max_left _ _
  · exact le_refl _

/-- C7 (amended): on a valid sample the bw field is overwritten with the
(u32-truncated) sample rate exactly when the sample is not app-limited or
at least the current max bandwidth; consequently for app-limited samples
the filter never decreases, provided the u64 sample rate fits in 32 bits. -/
theorem c7_bw_filter_update (s : Scc) (tp : Tp) (rs : RateSample)
    (hd : 0 ≤ rs.delivered) (hi : 0 < rs.interval_us) :
    ((scc_update_bw s tp rs).bw =
      if ¬ rs.is_app_limited ∨ sample_bw rs ≥ scc_max_bw s then sample_bw rs % U32
      else s.bw) ∧
    (rs.is_app_limited = true → sample_bw rs < 4294967296 →
      s.bw ≤ (scc_update_bw s tp rs).bw) := by
  have hval : ¬ (rs.delivered < 0 ∨ rs.interval_us ≤ 0) := by omega
  have core : ∀ t : Scc, scc_max_bw t = scc_max_bw s → t.bw = s.bw →
      (if ¬ rs.is_app_limited ∨ sample_bw rs ≥ scc_max_bw (scc_lt_bw_sampling t tp rs)
       then { scc_lt_bw_sampling t tp rs with bw := sample_bw rs % U32 }
       else scc_lt_bw_sampling t tp rs).bw =
      (if ¬ rs.is_app_limited ∨ sample_bw rs ≥ scc_max_bw s then sample_bw rs % U32
       else s.bw) := by
    intro t h1 h2
    rw [(maxbw_lt_sampling t tp rs).1, h1]
    split_ifs with hc
    · rfl
    · rw [(maxbw_lt_sampling t tp rs).2, h2]
  have heq : (scc_update_bw s tp rs).bw =
      if ¬ rs.is_app_limited ∨ sample_bw rs ≥ scc_max_bw s then sample_bw rs % U32
      else s.bw := by
    simp only [scc_update_bw, if_neg hval]
    refine core _ ?_ ?_ <;> (split <;> rfl)
  refine ⟨heq, ?_⟩
  intro happ hlt
  rw [heq]
  split_ifs with hc
  · rw [Nat.mod_eq_of_lt hlt]
    rcases hc with hc | hc
    · simp [happ] at hc
    · exact le_trans (le_scc_max_bw s) hc
  · exact le_refl _

/-- A valid, lossless, non-app-limited sample delivering 10 packets over
100 ms. -/
def rs7w : RateSample where
  delivered := 10
  interval_us := 100000
  rtt_us := 0
  losses := 0
  acked_sacked := 0
  prior_in_flight := 0
  prior_delivered := 0
  is_app_limited := false
  is_ack_delayed := false

/-- C7 witness: the filter equation and monotonicity at a concrete valid
sample. -/
theorem c7_bw_filter_update_witness :
    ((scc_update_bw initP.1 tp0 rs7w).bw =
      if ¬ rs7w.is_app_limited ∨ sample_bw rs7w ≥ scc_max_bw initP.1
      then sample_bw rs7w % U32 else initP.1.bw) ∧
    (rs7w.is_app_limited = true → sample_bw rs7w < 4294967296 →
      initP.1.bw ≤ (scc_update_bw initP.1 tp0 rs7w).bw) :=
  c7_bw_filter_update initP.1 tp0 rs7w (by decide) (by decide)

/-- The state for the C7 counterexample: a max-filter already at 20 Mbw. -/
def s7 : Scc := { sccZero with bw := 20000000, last_min_rtt := 1000 }

/-- The sample for the C7 counterexample: valid, app-limited, with u64
sample rate `256 * 2^24 / 1 = 2^32`, whose u32 truncation is 0. -/
def rs7 : RateSample where
  delivered := 256
  interval_us := 1
  rtt_us := 0
  losses := 0
  acked_sacked := 0
  prior_in_flight := 0
  prior_delivered := 0
  is_app_limited := true
  is_ack_delayed := false

/-- C7 counterexample: an app-limited valid sample whose u64 rate passes
the max-filter test but truncates to 0 on the u32 store, so the filter
field decreases from 20000000 to 0. -/
theorem c7_counterexample :
    rs7.is_app_limited = true ∧ 0 ≤ rs7.delivered ∧ 0 < rs7.interval_us ∧
    s7.bw = 20000000 ∧ (scc_update_bw s7 tp0 rs7).bw = 0 ∧
    (scc_update_bw s7 tp0 rs7).bw < s7.bw := by
  refine ⟨by decide, by decide, by decide, by decide, by decide, by decide⟩

/-! ### Positivity of the division denominators (claim C9) -/

theorem percent_gain_denom_pos (l u : Nat) (h1 : 0 < l + u) (h2 : l + u < 2863311531) :
    0 < percent_gain_denom l u := by
  simp only [percent_gain_denom, U32]
  rw [Nat.mod_eq_of_lt (show l + u < 4294967296 by omega)]
  have h4 : (l + u) * 3 ≠ 4294967296 := by omega
  have h5 : (l + u) * 3 ≠ 4294967297 := by omega
  rcases Nat.lt_or_ge ((l + u) * 3) 4294967296 with hlt | hge
  · rw [Nat.mod_eq_of_lt hlt]; omega
  · have hx : (l + u) * 3 % 4294967296 = (l + u) * 3 - 4294967296 := by omega
    rw [hx]; omega

theorem fairness_rat_denom_pos (gamma beta : Nat)
    (h : 0 < beta ∨ (67108864 ≤ gamma ∧ gamma < 4294967296)) :
    0 < fairness_rat_denom gamma beta := by
  simp only [fairness_rat_denom, U32, BW_UNIT]
  split_ifs with hb
  · rw [Nat.mod_eq_of_lt (show gamma / 4 < 4294967296 by omega)]
    omega
  · omega

theorem spline_cwnd_gain_denom_pos (s : Scc) : 0 < spline_cwnd_gain_denom s := by
  simp only [spline_cwnd_gain_denom, MIN_BW, MIN_RTT_US]
  split_ifs <;> first | omega | exact Nat.pos_of_ne_zero (by assumption)

theorem spline_gain_rtt_pos (s : Scc) : 0 < spline_gain_rtt s := by
  simp only [spline_gain_rtt, MIN_RTT_US]
  split_ifs <;> omega

theorem cwnd_loss_denom_pos (s : Scc) (hrc : s.last_min_rtt ≤ s.curr_rtt)
    (hcr : s.curr_rtt < 2147483648) :
    0 < cwnd_loss_phase_denom s (spline_gain_rtt s) := by
  simp only [cwnd_loss_phase_denom, spline_gain_rtt, MIN_RTT_US, U32]
  split_ifs with h <;> omega

/-- C9 (amended): the floored denominators (`spline_cwnd_gain`,
`spline_gain`'s averaged RTT) are positive unconditionally;
`cwnd_loss_phase`'s re-averaged RTT is positive once `last_min_rtt` is
clamped below `curr_rtt` (which `update_min_rtt` guarantees);
`percent_gain`'s u32 denominator and `fairness_rat`'s substituted `beta`
are positive only under explicit bounds on the lost counter and the
bandwidth; and the divisors `last_min_rtt` in `bandwidth`/
`inflight_throughput` are positive only when the host srtt is 0 or ≥ 8. -/
theorem c9_denominators_positive (s : Scc) (tp : Tp) (rs : RateSample) (l u gamma beta : Nat)
    (hlu : 0 < l + u) (hlu2 : l + u < 2863311531)
    (hbeta : 0 < beta ∨ (67108864 ≤ gamma ∧ gamma < 4294967296))
    (hrc : s.last_min_rtt ≤ s.curr_rtt) (hcr : s.curr_rtt < 2147483648)
    (hsrtt : tp.srtt_us = 0 ∨ 8 ≤ tp.srtt_us) :
    0 < percent_gain_denom l u ∧
    0 < fairness_rat_denom gamma beta ∧
    0 < spline_cwnd_gain_denom s ∧
    0 < spline_gain_rtt s ∧
    0 < cwnd_loss_phase_denom s (spline_gain_rtt s) ∧
    0 < (update_min_rtt s tp rs).last_min_rtt :=
  ⟨percent_gain_denom_pos l u hlu hlu2,
   fairness_rat_denom_pos gamma beta hbeta,
   spline_cwnd_gain_denom_pos s,
   spline_gain_rtt_pos s,
   cwnd_loss_denom_pos s hrc hcr,
   update_min_rtt_pos s tp rs hsrtt⟩

/-- The state reached by `update_min_rtt` from init on the nominal host
state (so its min-RTT clamp invariant holds). -/
def s9 : Scc := update_min_rtt initP.1 tp0 rsInvalid

/-- C9 witness: the positivity conjunction at a concrete state. -/
theorem c9_denominators_positive_witness :
    0 < percent_gain_denom 0 1 ∧
    0 < fairness_rat_denom 0 1 ∧
    0 < spline_cwnd_gain_denom s9 ∧
    0 < spline_gain_rtt s9 ∧
    0 < cwnd_loss_phase_denom s9 (spline_gain_rtt s9) ∧
    0 < (update_min_rtt s9 tp0 rsInvalid).last_min_rtt :=
  c9_denominators_positive s9 tp0 rsInvalid 0 1 0 1 (by decide) (by decide)
    (Or.inl (by decide)) (by decide) (by decide) (Or.inr (by decide))

/-- The host state with `tp->lost` at the u32 maximum. -/
def tpLostMax : Tp := { tp0 with lost := 4294967295 }

/-- C9 counterexample: right after `init` with `tp->lost = 2^32 - 1`, the
state (reachable in one entry-point call) has `lt_last_lost = 2^32 - 1`
and `unfair_flag = 0`, and the `percent_gain` denominator computed from
them by `loss_rate` on the next ack is `((2^32 - 1 + 1) * 3 mod 2^32) >> 1
= 0` — a division by zero the claim says is unreachable. -/
theorem c9_counterexample :
    (spline_init sk0 tpLostMax 0).1.lt_last_lost = 4294967295 ∧
    (spline_init sk0 tpLostMax 0).1.unfair_flag = 0 ∧
    percent_gain_denom (spline_init sk0 tpLostMax 0).1.lt_last_lost 1 = 0 := by
  refine ⟨by decide, by decide, by decide⟩

end TcpSpline
